import Mathlib

/-!
Shallow embedding of the repository youtube_scrape_utils
(src/youtube_scraper.py, with src/main.py as an earlier variant).

The repository is one orchestration class, YoutubeScraper, composing a
playlist-listing API, a caption-transcript API, and an optional flat-file
JSON cache keyed by video id.  External collaborators are modelled as
oracle functions passed in explicitly; the filesystem cache is modelled as
an association list from full file path to the JSON value stored there
(json.dump followed by json.load is the identity on JSON-representable
values, so files hold JSON values rather than text).  Python exceptions
are modelled with Except.  Floats only ever reach int() truncation and
string interpolation here, so caption start times are modelled as
rationals.
-/

/-- Python exceptions that the scraper code can raise or propagate. -/
inductive PyErr where
  | valueError (msg : String)
  | transcriptsDisabled
  | upstream (msg : String)
  | keyError (key : String)
  | typeError (msg : String)
deriving DecidableEq

/-- JSON value, as stored in a cache file and as returned by json.load. -/
inductive Json where
  | null
  | bool (b : Bool)
  | num (q : ℚ)
  | str (s : String)
  | arr (elems : List Json)
  | obj (fields : List (String × Json))

/-- Python truthiness of a parsed JSON value: None, False, 0, the empty
string, the empty list and the empty dict are falsy. -/
def jsonTruthy : Json → Bool
  | .null => false
  | .bool b => b
  | .num q => q != 0
  | .str s => s != ""
  | .arr elems => !elems.isEmpty
  | .obj fields => !fields.isEmpty

/-- Python truthiness of an Optional[str] value: None and the empty string
are falsy. -/
def strOptTruthy : Option String → Bool
  | none => false
  | some s => s != ""

/-- Field snippet.resourceId of a pyyoutube PlaylistItem. -/
structure ResourceId where
  videoId : String

/-- Field snippet of a pyyoutube PlaylistItem (only the fields the code
reads). -/
structure Snippet where
  resourceId : ResourceId
  title : String

/-- Entry of a playlist as returned by the listing API (only the fields the
code reads). -/
structure PlaylistItem where
  snippet : Snippet

/-- Caption line as returned by the transcript collaborator:
a dict with keys text, start and duration. -/
structure TranscriptLine where
  text : String
  start : ℚ
  duration : ℚ

/-- JSON form of a caption line, as json.dump serialises the dict returned
by the transcript collaborator. -/
def lineToJson (l : TranscriptLine) : Json :=
  .obj [("text", .str l.text), ("start", .num l.start),
        ("duration", .num l.duration)]

/-- Oracle for YouTubeTranscriptApi.get_transcript: raises the distinguished
TranscriptsDisabled error, another error, or returns the caption lines. -/
def TranscriptApi : Type := String → Except PyErr (List TranscriptLine)

/-- Oracle for the pyyoutube listing API: takes the api key held by the Api
object and the playlist id, returns the playlist items. -/
def ListingApi : Type := String → String → Except PyErr (List PlaylistItem)

/-- Filesystem fragment visible to the scraper: full file path to the JSON
value stored at it.  A write conses to the front; a lookup takes the first
match, so the newest write wins, matching file overwrite semantics. -/
def FS : Type := List (String × Json)

/-- Content of the file at a path, when a file exists there. -/
def fsLookup (fs : FS) (path : String) : Option Json :=
  match List.find? (fun e => e.1 == path) fs with
  | some e => some e.2
  | none => none

/-- Boolean test used by os.path.join: whether the char list starts with the
given chars. -/
def charsAtFront : List Char → List Char → Bool
  | [], _ => true
  | _ :: _, [] => false
  | a :: as, b :: bs => a == b && charsAtFront as bs

/-- Model of os.path.join on two components, as used with cache_dir and a
file name. -/
def osPathJoin (a b : String) : String :=
  if charsAtFront ['/'] b.data then b
  else if a == "" then b
  else if charsAtFront ['/'] a.data.reverse then a ++ b
  else a ++ "/" ++ b

/-- Python int() truncation of a rational toward zero, the behaviour of
int() on a float. -/
def pyInt (q : ℚ) : Int := Int.tdiv q.num q.den

/-- Python str() conversion as used by f-string interpolation.  Every value
this program interpolates is a string (titles and ids from the listing API,
caption text from the transcript API), where this model is exact; other
JSON shapes get a simple canonical rendering. -/
def pyStr : Json → String
  | .str s => s
  | .null => "None"
  | .bool true => "True"
  | .bool false => "False"
  | .num q => toString q.num ++ (if q.den == 1 then "" else "/" ++ toString q.den)
  | .arr _ => "<list>"
  | .obj _ => "<dict>"

/-- Subscript lookup d[k] on a parsed JSON value: KeyError when the key is
absent, TypeError when the value is not a dict. -/
def Json.getKey : Json → String → Except PyErr Json
  | .obj fields, k =>
    match List.find? (fun e => e.1 == k) fields with
    | some e => .ok e.2
    | none => .error (.keyError k)
  | _, _ => .error (.typeError "value is not subscriptable")

/-- List content of a parsed JSON value, as iterated by a for loop.  The
transcript field of every record this program writes is a list, where this
model is exact. -/
def Json.asList : Json → Except PyErr (List Json)
  | .arr elems => .ok elems
  | _ => .error (.typeError "value is not iterable")

/-- Numeric content of a parsed JSON value, as consumed by int().  Exact on
numbers and booleans; other shapes raise TypeError. -/
def Json.asRat : Json → Except PyErr ℚ
  | .num q => .ok q
  | .bool b => .ok (if b then 1 else 0)
  | _ => .error (.typeError "int() argument must be a number")

/-- State of the YoutubeScraper object after construction: the api key held
by the pyyoutube Api object and the optional cache directory. -/
structure YoutubeScraper where
  api_key : String
  cache_dir : Option String

namespace YoutubeScraper

/-- Constructor of YoutubeScraper.  The whole contents of the secret file
are given as api_key_file_contents (the file read itself is I/O outside the
embedding); the code passes them to Api(api_key=...) unmodified. -/
def init (api_key_file_contents : String) (cache_dir : Option String) :
    YoutubeScraper :=
  { api_key := api_key_file_contents, cache_dir := cache_dir }

/-- Method check_cache_dir_defined: raises ValueError when cache_dir is
falsy. -/
def check_cache_dir_defined (self : YoutubeScraper) : Except PyErr Unit :=
  if strOptTruthy self.cache_dir then .ok ⟨⟩
  else .error (.valueError "No cache directory input.")

/-- Method cache_file_dir: full path of a cache file with the given name
and extension.  The none branch after the check is unreachable. -/
def cache_file_dir (self : YoutubeScraper) (file_name : String)
    (ext : String) : Except PyErr String := do
  self.check_cache_dir_defined
  match self.cache_dir with
  | some d => pure (osPathJoin d (file_name ++ ext))
  | none => .error (.valueError "No cache directory input.")

/-- Method read_json_from_cache: parsed JSON at the cache path, or None when
no file exists there. -/
def read_json_from_cache (self : YoutubeScraper) (fs : FS)
    (file_name : String) : Except PyErr (Option Json) := do
  self.check_cache_dir_defined
  let path ← self.cache_file_dir file_name ".json"
  match fsLookup fs path with
  | some j => pure (some j)
  | none => pure none

/-- Method write_json_to_cache: writes the JSON value to the cache path,
returning the new filesystem state. -/
def write_json_to_cache (self : YoutubeScraper) (fs : FS) (d : Json)
    (file_name : String) : Except PyErr FS := do
  self.check_cache_dir_defined
  let path ← self.cache_file_dir file_name ".json"
  pure ((path, d) :: fs)

/-- Static method get_transcript: delegates to the transcript collaborator,
converting the TranscriptsDisabled error to an empty list; every other
outcome passes through. -/
def get_transcript (api : TranscriptApi) (video_id : String) :
    Except PyErr (List TranscriptLine) :=
  match api video_id with
  | .error .transcriptsDisabled => .ok []
  | r => r

/-- Dictionary d as built by transcript_dict_from_playlist_item on a cache
miss, in insertion order video_id, video_title, transcript. -/
def build_dict (playlist_item : PlaylistItem)
    (transcript : List TranscriptLine) : Json :=
  .obj [("video_id", .str playlist_item.snippet.resourceId.videoId),
        ("video_title", .str playlist_item.snippet.title),
        ("transcript", .arr (transcript.map lineToJson))]

/-- Result of one call to transcript_dict_from_playlist_item: the returned
record, the filesystem state after the call, and how many times the
transcript collaborator was invoked during the call. -/
structure ItemResult where
  record : Json
  fs : FS
  apiCalls : Nat

/-- Fall-through path of transcript_dict_from_playlist_item, reached when
the walrus-if test on the cached value fails: build the dictionary, fetch
the transcript, and write the dictionary back only when cache_dir is
truthy. -/
def fresh_dict_and_cache (self : YoutubeScraper) (api : TranscriptApi)
    (fs : FS) (playlist_item : PlaylistItem) : Except PyErr ItemResult := do
  let file_name := playlist_item.snippet.resourceId.videoId
  let transcript ← get_transcript api file_name
  let d := build_dict playlist_item transcript
  if strOptTruthy self.cache_dir then
    let fs2 ← self.write_json_to_cache fs d file_name
    pure ⟨d, fs2, 1⟩
  else
    pure ⟨d, fs, 1⟩

/-- Method transcript_dict_from_playlist_item: reads the cache
unconditionally (the walrus-if), returns the cached JSON when it is truthy,
and otherwise falls through to the fresh build. -/
def transcript_dict_from_playlist_item (self : YoutubeScraper)
    (api : TranscriptApi) (fs : FS) (playlist_item : PlaylistItem) :
    Except PyErr ItemResult := do
  let file_name := playlist_item.snippet.resourceId.videoId
  let local_json ← self.read_json_from_cache fs file_name
  match local_json with
  | some j =>
    if jsonTruthy j then pure ⟨j, fs, 0⟩
    else self.fresh_dict_and_cache api fs playlist_item
  | none => self.fresh_dict_and_cache api fs playlist_item

/-- Static method transcript_line_to_link: the anchor line for one caption
line. -/
def transcript_line_to_link (video_id : String) (text : String)
    (start : ℚ) : String :=
  "<a href=\"https://youtu.be/" ++ video_id ++ "?t=" ++ toString (pyInt start)
    ++ "\">" ++ text ++ "</a>"

/-- Method playlist_items_from_playlist_id: delegates to the listing API
with the api key held by the Api object. -/
def playlist_items_from_playlist_id (self : YoutubeScraper)
    (listing : ListingApi) (playlist_id : String) :
    Except PyErr (List PlaylistItem) :=
  listing self.api_key playlist_id

/-- Loop body of transcript_dicts_from_playlist_id over the playlist items,
threading the filesystem state and summing collaborator invocations.  The
printed progress indicator is a side effect outside the return contract and
is not modelled. -/
def scrape_list (self : YoutubeScraper) (api : TranscriptApi) :
    List PlaylistItem → FS → Except PyErr (List Json × FS × Nat)
  | [], fs => pure ([], fs, 0)
  | item :: rest, fs => do
    let r ← self.transcript_dict_from_playlist_item api fs item
    let (ds, fs2, n) ← self.scrape_list api rest r.fs
    pure (r.record :: ds, fs2, r.apiCalls + n)

/-- Method transcript_dicts_from_playlist_id: one record per playlist item,
in playlist order. -/
def transcript_dicts_from_playlist_id (self : YoutubeScraper)
    (listing : ListingApi) (api : TranscriptApi) (fs : FS)
    (playlist_id : String) : Except PyErr (List Json × FS × Nat) := do
  let playlist_items ← self.playlist_items_from_playlist_id listing playlist_id
  self.scrape_list api playlist_items fs

/-- Comprehension body of transcript_html_lines_from_playlist_id: one anchor
line per caption line of one record. -/
def link_lines (id : Json) : List Json → Except PyErr (List String)
  | [] => pure []
  | t :: rest => do
    let text ← t.getKey "text"
    let start ← t.getKey "start"
    let q ← start.asRat
    let more ← link_lines id rest
    pure (transcript_line_to_link (pyStr id) (pyStr text) q :: more)

/-- Per-record body of the loop in transcript_html_lines_from_playlist_id:
the heading line followed by one anchor line per caption line. -/
def record_lines (transcript_dict : Json) : Except PyErr (List String) := do
  let id ← transcript_dict.getKey "video_id"
  let title ← transcript_dict.getKey "video_title"
  let transcript ← transcript_dict.getKey "transcript"
  let ts ← transcript.asList
  let links ← link_lines id ts
  pure (("<h1>" ++ pyStr title ++ "</h1>") :: links)

/-- Loop of transcript_html_lines_from_playlist_id over the records. -/
def records_to_lines : List Json → Except PyErr (List String)
  | [] => pure []
  | d :: rest => do
    let block ← record_lines d
    let more ← records_to_lines rest
    pure (block ++ more)

/-- Method transcript_html_lines_from_playlist_id: heading and anchor lines
for the whole playlist. -/
def transcript_html_lines_from_playlist_id (self : YoutubeScraper)
    (listing : ListingApi) (api : TranscriptApi) (fs : FS)
    (playlist_id : String) : Except PyErr (List String × FS × Nat) := do
  let (transcript_dicts, fs2, n) ←
    self.transcript_dicts_from_playlist_id listing api fs playlist_id
  let lines ← records_to_lines transcript_dicts
  pure (lines, fs2, n)

/-- Method transcript_html_from_playlist: the report lines joined with the
separator. -/
def transcript_html_from_playlist (self : YoutubeScraper)
    (listing : ListingApi) (api : TranscriptApi) (fs : FS)
    (playlist_id : String) (sep : String) : Except PyErr (String × FS × Nat) := do
  let (lines, fs2, n) ←
    self.transcript_html_lines_from_playlist_id listing api fs playlist_id
  pure (String.intercalate sep lines, fs2, n)

end YoutubeScraper

/-- Whitespace strip as the words of the spec describe the api key handling
(leading and trailing whitespace removed).  This is the spec-side
definition, kept separate to compare with the code, which does not strip. -/
def dropLeadingWs : List Char → List Char
  | [] => []
  | c :: cs => if c.isWhitespace then dropLeadingWs cs else c :: cs

/-- Spec-side strip of leading and trailing whitespace from a string,
modelling the str.strip() the spec attributes to the constructor. -/
def stripSpec (s : String) : String :=
  ⟨dropLeadingWs ((dropLeadingWs s.data.reverse).reverse)⟩

/-! Concrete collaborators and inputs used by witnesses and
counterexamples. -/

/-- Transcript collaborator returning one caption line starting at 75.9
seconds for every video. -/
def apiHello : TranscriptApi := fun _ => .ok [⟨"hello", mkRat 759 10, 1⟩]

/-- Transcript collaborator reporting captions disabled for every video. -/
def apiDisabledAll : TranscriptApi := fun _ => .error .transcriptsDisabled

/-- Transcript collaborator failing with an upstream error for every
video. -/
def apiBoom : TranscriptApi := fun _ => .error (.upstream "boom")

/-- Caption line of the spec example: text hello, start 75.9 seconds. -/
def lineHello : TranscriptLine := ⟨"hello", mkRat 759 10, 1⟩

/-- Playlist entry with video id abc. -/
def itemAbc : PlaylistItem := ⟨⟨⟨"abc"⟩, "Title A"⟩⟩

/-- Playlist entry with video id def. -/
def itemDef : PlaylistItem := ⟨⟨⟨"def"⟩, "Title D"⟩⟩

/-- Record the scraper builds for itemAbc from one hello caption line. -/
def dAbc : Json := YoutubeScraper.build_dict itemAbc [lineHello]

/-- Record the scraper builds for itemDef with an empty transcript. -/
def dDef : Json := YoutubeScraper.build_dict itemDef []

/-- Listing collaborator echoing the received api key back as a video id,
to observe which key string it was handed. -/
def listingEcho : ListingApi := fun key _ => .ok [⟨⟨⟨key⟩, ""⟩⟩]

/-- Listing collaborator returning the two-entry playlist of the spec
end-to-end example. -/
def listingTwo : ListingApi := fun _ _ => .ok [itemAbc, itemDef]

/-- Transcript collaborator with captions for video abc and captions
disabled for every other video. -/
def apiMixed : TranscriptApi := fun vid =>
  if vid == "abc" then .ok [lineHello] else .error .transcriptsDisabled

/-! Helper lemmas shared by the claim theorems below. -/

/-- Bind on Except applied to a success value. -/
theorem ok_bind {α β : Type} (a : α) (f : α → Except PyErr β) :
    (Except.ok a >>= f : Except PyErr β) = f a := rfl

/-- Bind on Except applied to an error value. -/
theorem error_bind {α β : Type} (e : PyErr) (f : α → Except PyErr β) :
    (Except.error e >>= f : Except PyErr β) = .error e := rfl

/-- Success characterisation of bind on Except. -/
theorem bind_eq_ok_iff {α β : Type} (x : Except PyErr α)
    (f : α → Except PyErr β) (b : β) :
    (x >>= f) = .ok b ↔ ∃ a, x = .ok a ∧ f a = .ok b := by
  cases x with
  | error e => simp [error_bind]
  | ok a => simp [ok_bind]

/-- Nonempty cache directory strings are truthy. -/
theorem strOptTruthy_some {d : String} (h : d ≠ "") :
    strOptTruthy (some d) = true := by
  simp [strOptTruthy, bne_iff_ne, h]

/-- With a truthy cache directory, check_cache_dir_defined succeeds. -/
theorem check_cache_dir_defined_ok {key d : String} (h : d ≠ "") :
    YoutubeScraper.check_cache_dir_defined ⟨key, some d⟩ = .ok ⟨⟩ := by
  simp [YoutubeScraper.check_cache_dir_defined, strOptTruthy_some h]

/-- With a truthy cache directory, cache_file_dir returns the joined
path. -/
theorem cache_file_dir_ok {key d : String} (h : d ≠ "")
    (name ext : String) :
    YoutubeScraper.cache_file_dir ⟨key, some d⟩ name ext
      = .ok (osPathJoin d (name ++ ext)) := by
  simp [YoutubeScraper.cache_file_dir, check_cache_dir_defined_ok h]

/-- With a truthy cache directory, read_json_from_cache returns the file
content at the cache path, or None when no file exists there. -/
theorem read_json_from_cache_run {key d : String} (h : d ≠ "")
    (fs : FS) (name : String) :
    YoutubeScraper.read_json_from_cache ⟨key, some d⟩ fs name
      = .ok (fsLookup fs (osPathJoin d (name ++ ".json"))) := by
  simp only [YoutubeScraper.read_json_from_cache, check_cache_dir_defined_ok h,
    cache_file_dir_ok h, ok_bind]
  cases fsLookup fs (osPathJoin d (name ++ ".json")) <;> rfl

/-- With a truthy cache directory, write_json_to_cache stores the value at
the cache path. -/
theorem write_json_to_cache_run {key d : String} (h : d ≠ "")
    (fs : FS) (dj : Json) (name : String) :
    YoutubeScraper.write_json_to_cache ⟨key, some d⟩ fs dj name
      = .ok ((osPathJoin d (name ++ ".json"), dj) :: fs) := by
  simp only [YoutubeScraper.write_json_to_cache, check_cache_dir_defined_ok h,
    cache_file_dir_ok h, ok_bind]
  rfl

/-- Python int() truncation agrees with the floor on nonnegative
rationals. -/
theorem pyInt_eq_floor (q : ℚ) (h : 0 ≤ q) : pyInt q = ⌊q⌋ := by
  rw [Rat.floor_def, pyInt]
  exact Int.tdiv_eq_ediv (Rat.num_nonneg.mpr h) (Int.natCast_nonneg q.den)

/-- Evaluation of the fresh-build path when the transcript fetch
succeeds and the cache directory is truthy. -/
theorem fresh_dict_and_cache_run {key d : String} (h : d ≠ "")
    (api : TranscriptApi) (fs : FS) (item : PlaylistItem)
    (t : List TranscriptLine)
    (hg : YoutubeScraper.get_transcript api item.snippet.resourceId.videoId
            = .ok t) :
    YoutubeScraper.fresh_dict_and_cache ⟨key, some d⟩ api fs item
      = .ok ⟨YoutubeScraper.build_dict item t,
             (osPathJoin d (item.snippet.resourceId.videoId ++ ".json"),
              YoutubeScraper.build_dict item t) :: fs, 1⟩ := by
  simp only [YoutubeScraper.fresh_dict_and_cache, hg, ok_bind,
    strOptTruthy_some h, write_json_to_cache_run h, if_true]
  rfl

/-- Evaluation of the fresh-build path when the transcript fetch fails. -/
theorem fresh_dict_and_cache_error {key d : String}
    (api : TranscriptApi) (fs : FS) (item : PlaylistItem) (e : PyErr)
    (hg : YoutubeScraper.get_transcript api item.snippet.resourceId.videoId
            = .error e) :
    YoutubeScraper.fresh_dict_and_cache ⟨key, some d⟩ api fs item
      = .error e := by
  simp only [YoutubeScraper.fresh_dict_and_cache, hg, error_bind]

/-- Evaluation of transcript_dict_from_playlist_item with a truthy cache
directory: the walrus-if on the cached value selects between the cache hit
and the fresh build. -/
theorem transcript_dict_run {key d : String} (h : d ≠ "")
    (api : TranscriptApi) (fs : FS) (item : PlaylistItem) :
    YoutubeScraper.transcript_dict_from_playlist_item ⟨key, some d⟩ api fs item
      = match fsLookup fs
              (osPathJoin d (item.snippet.resourceId.videoId ++ ".json")) with
        | some j =>
          if jsonTruthy j then .ok ⟨j, fs, 0⟩
          else YoutubeScraper.fresh_dict_and_cache ⟨key, some d⟩ api fs item
        | none => YoutubeScraper.fresh_dict_and_cache ⟨key, some d⟩ api fs item
      := by
  simp only [YoutubeScraper.transcript_dict_from_playlist_item,
    read_json_from_cache_run h, ok_bind]
  cases fsLookup fs (osPathJoin d (item.snippet.resourceId.videoId ++ ".json"))
    <;> rfl

/-- Every record the scraper builds is a nonempty dict, hence truthy. -/
theorem jsonTruthy_build_dict (item : PlaylistItem)
    (t : List TranscriptLine) :
    jsonTruthy (YoutubeScraper.build_dict item t) = true := rfl

/-- Reading back the path just written finds the written value. -/
theorem fsLookup_cons_self (fs : FS) (path : String) (j : Json) :
    fsLookup ((path, j) :: fs) path = some j := by
  simp [fsLookup, List.find?]

/-- After a successful fresh build, an immediate second call is a pure
cache hit returning the same record. -/
theorem idem_after_fresh {key d : String} (h : d ≠ "") (api : TranscriptApi)
    (fs : FS) (item : PlaylistItem) (r1 r2 : YoutubeScraper.ItemResult)
    (h1 : YoutubeScraper.fresh_dict_and_cache ⟨key, some d⟩ api fs item
            = .ok r1)
    (h2 : YoutubeScraper.transcript_dict_from_playlist_item ⟨key, some d⟩ api
            r1.fs item = .ok r2) :
    r2.record = r1.record ∧ r2.fs = r1.fs ∧ r2.apiCalls = 0
      ∧ r1.apiCalls + r2.apiCalls ≤ 1 := by
  cases hg : YoutubeScraper.get_transcript api item.snippet.resourceId.videoId
    with
  | error e =>
    rw [fresh_dict_and_cache_error api fs item e hg] at h1
    exact Except.noConfusion h1
  | ok t =>
    rw [fresh_dict_and_cache_run h api fs item t hg] at h1
    simp only [Except.ok.injEq] at h1
    subst h1
    simp only [transcript_dict_run h, fsLookup_cons_self,
      jsonTruthy_build_dict, if_true, Except.ok.injEq] at h2
    subst h2
    exact ⟨rfl, rfl, rfl, Nat.le_refl 1⟩

/-- Right members of a pointwise related pair of lists have pointwise
related left partners. -/
theorem forall2_mem_right {α β : Type} {R : α → β → Prop} :
    ∀ {as : List α} {bs : List β}, List.Forall₂ R as bs →
      ∀ {b : β}, b ∈ bs → ∃ a, R a b := by
  intro as bs h
  induction h with
  | nil => intro b hb; cases hb
  | cons hr _ ih =>
    intro b hb
    cases hb with
    | head => exact ⟨_, hr⟩
    | tail _ hb2 => exact ih hb2

/-- A successful scrape of a playlist produces one record per playlist
item, in order, each obtained from the corresponding item. -/
theorem scrape_list_ordered (self : YoutubeScraper) (api : TranscriptApi) :
    ∀ (items : List PlaylistItem) (fs : FS) (records : List Json)
      (fs2 : FS) (n : Nat),
      YoutubeScraper.scrape_list self api items fs = .ok (records, fs2, n) →
      List.Forall₂ (fun item r => ∃ (g g2 : FS) (k : Nat),
        YoutubeScraper.transcript_dict_from_playlist_item self api g item
          = .ok ⟨r, g2, k⟩) items records := by
  intro items
  induction items with
  | nil =>
    intro fs records fs2 n hs
    simp only [YoutubeScraper.scrape_list, pure, Except.pure,
      Except.ok.injEq, Prod.mk.injEq] at hs
    obtain ⟨h1, h2, h3⟩ := hs
    subst h1
    exact List.Forall₂.nil
  | cons item rest ih =>
    intro fs records fs2 n hs
    simp only [YoutubeScraper.scrape_list] at hs
    rw [bind_eq_ok_iff] at hs
    obtain ⟨r, hr, hs⟩ := hs
    rw [bind_eq_ok_iff] at hs
    obtain ⟨⟨ds, fs3, m⟩, hrest, hp⟩ := hs
    simp only [pure, Except.pure, Except.ok.injEq, Prod.mk.injEq] at hp
    obtain ⟨h1, h2, h3⟩ := hp
    subst h1
    exact List.Forall₂.cons ⟨fs, r.fs, r.apiCalls, hr⟩ (ih r.fs ds fs3 m hrest)

/-- A successful rendering of a record list is the concatenation of one
block per record, in order. -/
theorem records_to_lines_join :
    ∀ (records : List Json) (lines : List String),
      YoutubeScraper.records_to_lines records = .ok lines →
      ∃ blocks : List (List String),
        List.Forall₂ (fun r b => YoutubeScraper.record_lines r = .ok b)
          records blocks
        ∧ lines = List.flatten blocks := by
  intro records
  induction records with
  | nil =>
    intro lines h
    simp only [YoutubeScraper.records_to_lines, pure, Except.pure,
      Except.ok.injEq] at h
    subst h
    exact ⟨[], List.Forall₂.nil, rfl⟩
  | cons rec rest ih =>
    intro lines h
    simp only [YoutubeScraper.records_to_lines] at h
    rw [bind_eq_ok_iff] at h
    obtain ⟨block, hb, h⟩ := h
    rw [bind_eq_ok_iff] at h
    obtain ⟨more, hm, hp⟩ := h
    simp only [pure, Except.pure, Except.ok.injEq] at hp
    subst hp
    obtain ⟨blocks, hf, hj⟩ := ih more hm
    exact ⟨block :: blocks, List.Forall₂.cons hb hf, by simp [hj]⟩

/-- Every line produced by the caption comprehension is an anchor line. -/
theorem link_lines_shape (idj : Json) :
    ∀ (ts : List Json) (links : List String),
      YoutubeScraper.link_lines idj ts = .ok links →
      ∀ l ∈ links, ∃ (a c : String) (q : ℚ),
        l = YoutubeScraper.transcript_line_to_link a c q := by
  intro ts
  induction ts with
  | nil =>
    intro links h l hl
    simp only [YoutubeScraper.link_lines, pure, Except.pure,
      Except.ok.injEq] at h
    subst h
    cases hl
  | cons t rest ih =>
    intro links h l hl
    simp only [YoutubeScraper.link_lines] at h
    rw [bind_eq_ok_iff] at h
    obtain ⟨text, ht, h⟩ := h
    rw [bind_eq_ok_iff] at h
    obtain ⟨st, hst, h⟩ := h
    rw [bind_eq_ok_iff] at h
    obtain ⟨q, hq, h⟩ := h
    rw [bind_eq_ok_iff] at h
    obtain ⟨more, hmore, hp⟩ := h
    simp only [pure, Except.pure, Except.ok.injEq] at hp
    subst hp
    cases hl with
    | head => exact ⟨pyStr idj, pyStr text, q, rfl⟩
    | tail _ hl2 => exact ih more hmore l hl2

/-- A successful block for one record is a heading line followed by anchor
lines only. -/
theorem record_lines_shape (r : Json) (b : List String)
    (hb : YoutubeScraper.record_lines r = .ok b) :
    ∃ (title : Json) (caps : List String),
      b = ("<h1>" ++ pyStr title ++ "</h1>") :: caps
      ∧ ∀ l ∈ caps, ∃ (a c : String) (q : ℚ),
          l = YoutubeScraper.transcript_line_to_link a c q := by
  unfold YoutubeScraper.record_lines at hb
  rw [bind_eq_ok_iff] at hb
  obtain ⟨idj, hid, hb⟩ := hb
  rw [bind_eq_ok_iff] at hb
  obtain ⟨titlej, htit, hb⟩ := hb
  rw [bind_eq_ok_iff] at hb
  obtain ⟨trj, htr, hb⟩ := hb
  rw [bind_eq_ok_iff] at hb
  obtain ⟨ts, hts, hb⟩ := hb
  rw [bind_eq_ok_iff] at hb
  obtain ⟨links, hlinks, hp⟩ := hb
  simp only [pure, Except.pure, Except.ok.injEq] at hp
  subst hp
  exact ⟨titlej, links, rfl, link_lines_shape idj ts links hlinks⟩

/-! Claim theorems. -/

/-- C1 (evaluation at the failing input): when the Scraper is constructed
with no cache directory, transcript_dict_from_playlist_item does not
return a freshly constructed record; the unconditional cache read raises
ValueError before the transcript collaborator can be invoked, for every
playlist entry, filesystem state and transcript collaborator.  This
contradicts the claim, which asserts the call returns without raising. -/
theorem C1_no_cache_dir_raises :
    ∀ (key : String) (api : TranscriptApi) (fs : FS) (item : PlaylistItem),
      YoutubeScraper.transcript_dict_from_playlist_item ⟨key, none⟩ api fs item
        = .error (.valueError "No cache directory input.") :=
  fun _ _ _ _ => rfl

/-- C2: for every video id, when the transcript collaborator reports
captions disabled, get_transcript returns the empty sequence and does not
raise; any other collaborator error propagates unchanged to the caller. -/
theorem C2_disabled_transcript_is_empty :
    ∀ (api : TranscriptApi) (video_id : String),
      (api video_id = .error .transcriptsDisabled →
        YoutubeScraper.get_transcript api video_id = .ok [])
      ∧ (∀ (e : PyErr), e ≠ .transcriptsDisabled →
          api video_id = .error e →
          YoutubeScraper.get_transcript api video_id = .error e) := by
  intro api video_id
  constructor
  · intro h
    unfold YoutubeScraper.get_transcript
    rw [h]
  · intro e hne h
    unfold YoutubeScraper.get_transcript
    rw [h]
    cases e with
    | transcriptsDisabled => exact absurd rfl hne
    | valueError m => rfl
    | upstream m => rfl
    | keyError k => rfl
    | typeError m => rfl

/-- C2 witness: a disabled-captions collaborator yields the empty
transcript, and an upstream failure propagates. -/
theorem C2_disabled_transcript_is_empty_witness :
    YoutubeScraper.get_transcript apiDisabledAll "abc" = .ok []
    ∧ YoutubeScraper.get_transcript apiBoom "abc"
        = .error (.upstream "boom") :=
  ⟨(C2_disabled_transcript_is_empty apiDisabledAll "abc").1 rfl,
   (C2_disabled_transcript_is_empty apiBoom "abc").2 (.upstream "boom")
     (by decide) rfl⟩

/-- C3 counterexample: a cache file exists for video id abc (holding JSON
null), yet transcript_dict_from_playlist_item does not return the
deserialized cached record: it rebuilds a fresh record and invokes the
transcript collaborator once, so the claim as stated fails. -/
theorem C3_counterexample_falsy_file_not_returned :
    fsLookup [("cache/abc.json", Json.null)] "cache/abc.json"
      = some Json.null
    ∧ YoutubeScraper.transcript_dict_from_playlist_item ⟨"k", some "cache"⟩
        apiHello [("cache/abc.json", Json.null)] itemAbc
      = .ok ⟨dAbc, [("cache/abc.json", dAbc), ("cache/abc.json", Json.null)],
             1⟩
    ∧ dAbc ≠ Json.null :=
  ⟨rfl, rfl, fun hc => Json.noConfusion hc⟩

/-- C3 amended: with caching enabled, when the cache file for the video id
exists and its content deserializes to a truthy value (as every record this
scraper writes is), transcript_dict_from_playlist_item returns that content
unconditionally, with no collaborator invocation, no filesystem change, and
no dependence on the entry title; when no file exists, this is a normal
cache miss and a fresh record is built. -/
theorem C3_cache_hit_and_miss (key d : String) (api : TranscriptApi)
    (fs : FS) (vid : String) (h : d ≠ "") :
    (∀ (j : Json), fsLookup fs (osPathJoin d (vid ++ ".json")) = some j →
      jsonTruthy j = true →
      ∀ (title : String),
        YoutubeScraper.transcript_dict_from_playlist_item ⟨key, some d⟩ api fs
            ⟨⟨⟨vid⟩, title⟩⟩
          = .ok ⟨j, fs, 0⟩)
    ∧ (fsLookup fs (osPathJoin d (vid ++ ".json")) = none →
      ∀ (t : List TranscriptLine) (title : String),
        YoutubeScraper.get_transcript api vid = .ok t →
        YoutubeScraper.transcript_dict_from_playlist_item ⟨key, some d⟩ api fs
            ⟨⟨⟨vid⟩, title⟩⟩
          = .ok ⟨YoutubeScraper.build_dict ⟨⟨⟨vid⟩, title⟩⟩ t,
                 (osPathJoin d (vid ++ ".json"),
                  YoutubeScraper.build_dict ⟨⟨⟨vid⟩, title⟩⟩ t) :: fs, 1⟩) := by
  constructor
  · intro j hj htr title
    simp only [transcript_dict_run h, hj, htr, if_true]
  · intro hnone t title hg
    simp only [transcript_dict_run h, hnone]
    exact fresh_dict_and_cache_run h api fs ⟨⟨⟨vid⟩, title⟩⟩ t hg

/-- C3 witness: a concrete cache hit (returned unchanged for a different
title, with zero collaborator calls) and a concrete cache miss (fresh
record built and written). -/
theorem C3_cache_hit_and_miss_witness :
    YoutubeScraper.transcript_dict_from_playlist_item ⟨"k", some "cache"⟩
        apiHello [("cache/abc.json", dAbc)] ⟨⟨⟨"abc"⟩, "Other title"⟩⟩
      = .ok ⟨dAbc, [("cache/abc.json", dAbc)], 0⟩
    ∧ YoutubeScraper.transcript_dict_from_playlist_item ⟨"k", some "cache"⟩
        apiHello [] ⟨⟨⟨"abc"⟩, "Title A"⟩⟩
      = .ok ⟨YoutubeScraper.build_dict ⟨⟨⟨"abc"⟩, "Title A"⟩⟩ [lineHello],
             [("cache/abc.json",
               YoutubeScraper.build_dict ⟨⟨⟨"abc"⟩, "Title A"⟩⟩ [lineHello])],
             1⟩ :=
  ⟨(C3_cache_hit_and_miss "k" "cache" apiHello [("cache/abc.json", dAbc)]
      "abc" (by decide)).1 dAbc rfl rfl "Other title",
   (C3_cache_hit_and_miss "k" "cache" apiHello [] "abc" (by decide)).2 rfl
     [lineHello] "Title A" rfl⟩

/-- C4: with caching enabled, two consecutive calls of
transcript_dict_from_playlist_item on the same entry return equal records,
the second call is a pure cache hit (zero collaborator invocations, no
filesystem change), the collaborator is invoked at most once across the two
calls, and a cache write followed by a cache read of the same video id
returns the value written. -/
theorem C4_idempotent_and_roundtrip (key d : String) (api : TranscriptApi)
    (fs : FS) (item : PlaylistItem) (r1 r2 : YoutubeScraper.ItemResult)
    (h : d ≠ "") :
    (YoutubeScraper.transcript_dict_from_playlist_item ⟨key, some d⟩ api fs
        item = .ok r1 →
     YoutubeScraper.transcript_dict_from_playlist_item ⟨key, some d⟩ api
        r1.fs item = .ok r2 →
     r2.record = r1.record ∧ r2.fs = r1.fs ∧ r2.apiCalls = 0
       ∧ r1.apiCalls + r2.apiCalls ≤ 1)
    ∧ (∀ (dj : Json) (name : String) (fs2 fs3 : FS),
        YoutubeScraper.write_json_to_cache ⟨key, some d⟩ fs2 dj name
          = .ok fs3 →
        YoutubeScraper.read_json_from_cache ⟨key, some d⟩ fs3 name
          = .ok (some dj)) := by
  constructor
  · intro h1 h2
    rw [transcript_dict_run h] at h1
    cases hl : fsLookup fs
        (osPathJoin d (item.snippet.resourceId.videoId ++ ".json")) with
    | some j =>
      rw [hl] at h1
      cases hb : jsonTruthy j with
      | true =>
        simp only [hb, if_true, Except.ok.injEq] at h1
        subst h1
        simp only [transcript_dict_run h, hl, hb, if_true,
          Except.ok.injEq] at h2
        subst h2
        exact ⟨rfl, rfl, rfl, Nat.zero_le 1⟩
      | false =>
        simp only [hb, Bool.false_eq_true, if_false] at h1
        exact idem_after_fresh h api fs item r1 r2 h1 h2
    | none =>
      rw [hl] at h1
      exact idem_after_fresh h api fs item r1 r2 h1 h2
  · intro dj name fs2 fs3 hw
    rw [write_json_to_cache_run h] at hw
    simp only [Except.ok.injEq] at hw
    subst hw
    rw [read_json_from_cache_run h, fsLookup_cons_self]

/-- C4 witness: a concrete first call (miss, one collaborator call), the
second call on the resulting state (pure hit), the equal-record and
at-most-once conclusions, and a concrete write-read round trip. -/
theorem C4_idempotent_and_roundtrip_witness :
    YoutubeScraper.transcript_dict_from_playlist_item ⟨"k", some "cache"⟩
        apiHello [] itemAbc
      = .ok ⟨dAbc, [("cache/abc.json", dAbc)], 1⟩
    ∧ YoutubeScraper.transcript_dict_from_playlist_item ⟨"k", some "cache"⟩
        apiHello [("cache/abc.json", dAbc)] itemAbc
      = .ok ⟨dAbc, [("cache/abc.json", dAbc)], 0⟩
    ∧ (YoutubeScraper.ItemResult.record ⟨dAbc, [("cache/abc.json", dAbc)], 0⟩
        = YoutubeScraper.ItemResult.record
            ⟨dAbc, [("cache/abc.json", dAbc)], 1⟩
       ∧ YoutubeScraper.ItemResult.fs ⟨dAbc, [("cache/abc.json", dAbc)], 0⟩
        = YoutubeScraper.ItemResult.fs ⟨dAbc, [("cache/abc.json", dAbc)], 1⟩
       ∧ YoutubeScraper.ItemResult.apiCalls
           ⟨dAbc, [("cache/abc.json", dAbc)], 0⟩ = 0
       ∧ YoutubeScraper.ItemResult.apiCalls
           ⟨dAbc, [("cache/abc.json", dAbc)], 1⟩
         + YoutubeScraper.ItemResult.apiCalls
             ⟨dAbc, [("cache/abc.json", dAbc)], 0⟩ ≤ 1)
    ∧ YoutubeScraper.read_json_from_cache ⟨"k", some "cache"⟩
        [("cache/abc.json", dAbc)] "abc" = .ok (some dAbc) :=
  ⟨rfl, rfl,
   (C4_idempotent_and_roundtrip "k" "cache" apiHello [] itemAbc
      ⟨dAbc, [("cache/abc.json", dAbc)], 1⟩
      ⟨dAbc, [("cache/abc.json", dAbc)], 0⟩ (by decide)).1 rfl rfl,
   (C4_idempotent_and_roundtrip "k" "cache" apiHello [] itemAbc
      ⟨dAbc, [("cache/abc.json", dAbc)], 1⟩
      ⟨dAbc, [("cache/abc.json", dAbc)], 0⟩ (by decide)).2 dAbc "abc" []
     [("cache/abc.json", dAbc)] rfl⟩

/-- C5: the rendered anchor targets https://youtu.be/(video id)?t=(start
truncated, not rounded, to whole seconds) and its visible label is the
caption text: for nonnegative start the target second is the floor of
start, on the spec example (video id abc, text hello, start 75.9) the
anchor is exactly the expected string with t=75, and rounding 75.9 would
instead give 76. -/
theorem C5_anchor_target_truncates :
    (∀ (vid text : String) (q : ℚ), 0 ≤ q →
      YoutubeScraper.transcript_line_to_link vid text q
        = "<a href=\"https://youtu.be/" ++ vid ++ "?t=" ++ toString (⌊q⌋ : ℤ)
            ++ "\">" ++ text ++ "</a>")
    ∧ YoutubeScraper.transcript_line_to_link "abc" "hello" (mkRat 759 10)
        = "<a href=\"https://youtu.be/abc?t=75\">hello</a>"
    ∧ round (mkRat 759 10 : ℚ) = 76 := by
  refine ⟨?_, rfl, ?_⟩
  · intro vid text q hq
    unfold YoutubeScraper.transcript_line_to_link
    rw [pyInt_eq_floor q hq]
  · have h : (mkRat 759 10 : ℚ) = 759 / 10 := by norm_num [Rat.mkRat_eq_div]
    rw [h]
    norm_num [round_eq]

/-- C5 witness: the floor form of the anchor at the concrete nonnegative
start 75.9. -/
theorem C5_anchor_target_truncates_witness :
    (0 : ℚ) ≤ mkRat 759 10
    ∧ YoutubeScraper.transcript_line_to_link "xyz" "hi" (mkRat 759 10)
        = "<a href=\"https://youtu.be/" ++ "xyz" ++ "?t="
            ++ toString (⌊(mkRat 759 10 : ℚ)⌋ : ℤ) ++ "\">" ++ "hi" ++ "</a>" :=
  ⟨by decide,
   C5_anchor_target_truncates.1 "xyz" "hi" (mkRat 759 10) (by decide)⟩

/-- C6: a successful run preserves the order returned by the listing API:
the records correspond pointwise, in order, to the playlist items they were
built from, and the report lines are the in-order concatenation of one
block per record, each block being that record heading line followed only
by that record anchor lines, with no interleaving between videos. -/
theorem C6_order_preserved (self : YoutubeScraper) (listing : ListingApi)
    (api : TranscriptApi) (fs : FS) (pid : String)
    (items : List PlaylistItem) (records : List Json) (fs2 : FS) (n : Nat)
    (lines : List String) (fs3 : FS) (m : Nat)
    (hitems : self.playlist_items_from_playlist_id listing pid = .ok items)
    (hrecs : self.transcript_dicts_from_playlist_id listing api fs pid
               = .ok (records, fs2, n))
    (hlines : self.transcript_html_lines_from_playlist_id listing api fs pid
               = .ok (lines, fs3, m)) :
    List.Forall₂ (fun item r => ∃ (g g2 : FS) (k : Nat),
      self.transcript_dict_from_playlist_item api g item = .ok ⟨r, g2, k⟩)
      items records
    ∧ ∃ blocks : List (List String),
        List.Forall₂ (fun r b => YoutubeScraper.record_lines r = .ok b)
          records blocks
        ∧ lines = List.flatten blocks
        ∧ ∀ b ∈ blocks, ∃ (title : Json) (caps : List String),
            b = ("<h1>" ++ pyStr title ++ "</h1>") :: caps
            ∧ ∀ l ∈ caps, ∃ (a c : String) (q : ℚ),
                l = YoutubeScraper.transcript_line_to_link a c q := by
  have hd := hrecs
  unfold YoutubeScraper.transcript_dicts_from_playlist_id at hd
  rw [hitems] at hd
  simp only [ok_bind] at hd
  constructor
  · exact scrape_list_ordered self api items fs records fs2 n hd
  · unfold YoutubeScraper.transcript_html_lines_from_playlist_id at hlines
    rw [hrecs] at hlines
    simp only [ok_bind] at hlines
    rw [bind_eq_ok_iff] at hlines
    obtain ⟨ls, hls, hp⟩ := hlines
    simp only [pure, Except.pure, Except.ok.injEq, Prod.mk.injEq] at hp
    obtain ⟨h1, h2, h3⟩ := hp
    subst h1
    obtain ⟨blocks, hf, hj⟩ := records_to_lines_join records ls hls
    refine ⟨blocks, hf, hj, ?_⟩
    intro b hbmem
    obtain ⟨r, hr⟩ := forall2_mem_right hf hbmem
    exact record_lines_shape r b hr

/-- C6 witness: the spec end-to-end playlist (one video with a caption,
one with captions disabled) yields records in playlist order and a report
of two headings with the single anchor directly under the first. -/
theorem C6_order_preserved_witness :
    List.Forall₂ (fun item r => ∃ (g g2 : FS) (k : Nat),
      YoutubeScraper.transcript_dict_from_playlist_item ⟨"k", some "cache"⟩
        apiMixed g item = .ok ⟨r, g2, k⟩) [itemAbc, itemDef] [dAbc, dDef]
    ∧ ∃ blocks : List (List String),
        List.Forall₂ (fun r b => YoutubeScraper.record_lines r = .ok b)
          [dAbc, dDef] blocks
        ∧ ["<h1>Title A</h1>",
           "<a href=\"https://youtu.be/abc?t=75\">hello</a>",
           "<h1>Title D</h1>"] = List.flatten blocks
        ∧ ∀ b ∈ blocks, ∃ (title : Json) (caps : List String),
            b = ("<h1>" ++ pyStr title ++ "</h1>") :: caps
            ∧ ∀ l ∈ caps, ∃ (a c : String) (q : ℚ),
                l = YoutubeScraper.transcript_line_to_link a c q :=
  C6_order_preserved ⟨"k", some "cache"⟩ listingTwo apiMixed [] "PL"
    [itemAbc, itemDef] [dAbc, dDef]
    [("cache/def.json", dDef), ("cache/abc.json", dAbc)] 2
    ["<h1>Title A</h1>",
     "<a href=\"https://youtu.be/abc?t=75\">hello</a>",
     "<h1>Title D</h1>"]
    [("cache/def.json", dDef), ("cache/abc.json", dAbc)] 2 rfl rfl rfl

/-- C7: with caching enabled and no cache file for the entry,
transcript_dict_from_playlist_item persists the freshly built record under
the cache key and returns exactly that record, for every transcript the
collaborator yields, the empty one included. -/
theorem C7_persists_fresh_record (key d : String) (api : TranscriptApi)
    (fs : FS) (vid title : String) (t : List TranscriptLine) (h : d ≠ "")
    (hmiss : fsLookup fs (osPathJoin d (vid ++ ".json")) = none)
    (hg : YoutubeScraper.get_transcript api vid = .ok t) :
    YoutubeScraper.transcript_dict_from_playlist_item ⟨key, some d⟩ api fs
        ⟨⟨⟨vid⟩, title⟩⟩
      = .ok ⟨YoutubeScraper.build_dict ⟨⟨⟨vid⟩, title⟩⟩ t,
             (osPathJoin d (vid ++ ".json"),
              YoutubeScraper.build_dict ⟨⟨⟨vid⟩, title⟩⟩ t) :: fs, 1⟩
    ∧ fsLookup ((osPathJoin d (vid ++ ".json"),
                 YoutubeScraper.build_dict ⟨⟨⟨vid⟩, title⟩⟩ t) :: fs)
        (osPathJoin d (vid ++ ".json"))
      = some (YoutubeScraper.build_dict ⟨⟨⟨vid⟩, title⟩⟩ t) := by
  constructor
  · simp only [transcript_dict_run h, hmiss]
    exact fresh_dict_and_cache_run h api fs ⟨⟨⟨vid⟩, title⟩⟩ t hg
  · exact fsLookup_cons_self fs _ _

/-- C7 witness: a video with captions disabled gets its empty transcript
record persisted under the cache key. -/
theorem C7_persists_fresh_record_witness :
    YoutubeScraper.transcript_dict_from_playlist_item ⟨"k", some "cache"⟩
        apiDisabledAll [] ⟨⟨⟨"def"⟩, "Title D"⟩⟩
      = .ok ⟨YoutubeScraper.build_dict ⟨⟨⟨"def"⟩, "Title D"⟩⟩ [],
             [("cache/def.json",
               YoutubeScraper.build_dict ⟨⟨⟨"def"⟩, "Title D"⟩⟩ [])], 1⟩
    ∧ fsLookup [("cache/def.json",
                 YoutubeScraper.build_dict ⟨⟨⟨"def"⟩, "Title D"⟩⟩ [])]
        "cache/def.json"
      = some (YoutubeScraper.build_dict ⟨⟨⟨"def"⟩, "Title D"⟩⟩ []) :=
  C7_persists_fresh_record "k" "cache" apiDisabledAll [] "def" "Title D" []
    (by decide) rfl rfl

/-- C8 counterexample: on secret-file contents with surrounding
whitespace, the key the constructor stores and hands to the listing API is
the raw file contents, not the stripped contents, so the claim as stated
fails. -/
theorem C8_counterexample_key_not_stripped :
    (YoutubeScraper.init " key " none).api_key = " key "
    ∧ stripSpec " key " = "key"
    ∧ (YoutubeScraper.init " key " none).api_key ≠ stripSpec " key "
    ∧ (YoutubeScraper.init " key " none).playlist_items_from_playlist_id
        listingEcho "PL1" = .ok [⟨⟨⟨" key "⟩, ""⟩⟩] :=
  ⟨rfl, by decide, by decide, rfl⟩

/-- C8 amended: at construction the Scraper takes the whole secret-file
contents as the API key verbatim, with no whitespace trimming, and that
exact string is what the listing API receives. -/
theorem C8_amended_key_verbatim :
    ∀ (s : String) (cd : Option String) (listing : ListingApi)
      (pid : String),
      (YoutubeScraper.init s cd).api_key = s
      ∧ (YoutubeScraper.init s cd).playlist_items_from_playlist_id listing pid
          = listing s pid :=
  fun _ _ _ _ => ⟨rfl, rfl⟩

/-- C9: with caching enabled, a cache file whose JSON content is falsy
(here any falsy value j) is treated as a miss: the record is rebuilt
fresh, the collaborator is invoked once, the cache file is overwritten
with the fresh record, and the cached value is not returned. -/
theorem C9_falsy_cache_treated_as_miss (key d : String) (api : TranscriptApi)
    (fs : FS) (vid title : String) (j : Json) (t : List TranscriptLine)
    (h : d ≠ "") (hj : fsLookup fs (osPathJoin d (vid ++ ".json")) = some j)
    (hfalsy : jsonTruthy j = false)
    (hg : YoutubeScraper.get_transcript api vid = .ok t) :
    YoutubeScraper.transcript_dict_from_playlist_item ⟨key, some d⟩ api fs
        ⟨⟨⟨vid⟩, title⟩⟩
      = .ok ⟨YoutubeScraper.build_dict ⟨⟨⟨vid⟩, title⟩⟩ t,
             (osPathJoin d (vid ++ ".json"),
              YoutubeScraper.build_dict ⟨⟨⟨vid⟩, title⟩⟩ t) :: fs, 1⟩
    ∧ fsLookup ((osPathJoin d (vid ++ ".json"),
                 YoutubeScraper.build_dict ⟨⟨⟨vid⟩, title⟩⟩ t) :: fs)
        (osPathJoin d (vid ++ ".json"))
      = some (YoutubeScraper.build_dict ⟨⟨⟨vid⟩, title⟩⟩ t)
    ∧ YoutubeScraper.build_dict ⟨⟨⟨vid⟩, title⟩⟩ t ≠ j := by
  refine ⟨?_, fsLookup_cons_self fs _ _, ?_⟩
  · simp only [transcript_dict_run h, hj, hfalsy, Bool.false_eq_true,
      if_false]
    exact fresh_dict_and_cache_run h api fs ⟨⟨⟨vid⟩, title⟩⟩ t hg
  · intro hc
    have hb := jsonTruthy_build_dict ⟨⟨⟨vid⟩, title⟩⟩ t
    rw [hc, hfalsy] at hb
    exact Bool.noConfusion hb

/-- C9 witness: a cache file holding JSON null is rebuilt, the collaborator
is invoked, and the file is overwritten with the fresh record. -/
theorem C9_falsy_cache_treated_as_miss_witness :
    YoutubeScraper.transcript_dict_from_playlist_item ⟨"k", some "cache"⟩
        apiHello [("cache/abc.json", Json.null)] ⟨⟨⟨"abc"⟩, "Title A"⟩⟩
      = .ok ⟨YoutubeScraper.build_dict ⟨⟨⟨"abc"⟩, "Title A"⟩⟩ [lineHello],
             [("cache/abc.json",
               YoutubeScraper.build_dict ⟨⟨⟨"abc"⟩, "Title A"⟩⟩ [lineHello]),
              ("cache/abc.json", Json.null)], 1⟩
    ∧ fsLookup [("cache/abc.json",
                 YoutubeScraper.build_dict ⟨⟨⟨"abc"⟩, "Title A"⟩⟩ [lineHello]),
                ("cache/abc.json", Json.null)] "cache/abc.json"
      = some (YoutubeScraper.build_dict ⟨⟨⟨"abc"⟩, "Title A"⟩⟩ [lineHello])
    ∧ YoutubeScraper.build_dict ⟨⟨⟨"abc"⟩, "Title A"⟩⟩ [lineHello]
        ≠ Json.null :=
  C9_falsy_cache_treated_as_miss "k" "cache" apiHello
    [("cache/abc.json", Json.null)] "abc" "Title A" Json.null [lineHello]
    (by decide) rfl rfl rfl

/-- C10: the anchor line interpolates the video id, the truncated start
and the caption text verbatim, with no HTML escaping or URL encoding, in
exactly the concatenation shape of the source f-string; the heading line a
record contributes is exactly the title wrapped in h1 tags; both renderers
are pure functions of these inputs. -/
theorem C10_interpolation_verbatim :
    ∀ (vid title text : String) (q dur : ℚ),
      YoutubeScraper.transcript_line_to_link vid text q
        = "<a href=\"https://youtu.be/" ++ vid ++ "?t=" ++ toString (pyInt q)
            ++ "\">" ++ text ++ "</a>"
      ∧ YoutubeScraper.record_lines
          (YoutubeScraper.build_dict ⟨⟨⟨vid⟩, title⟩⟩ [⟨text, q, dur⟩])
          = .ok ["<h1>" ++ title ++ "</h1>",
                 YoutubeScraper.transcript_line_to_link vid text q] :=
  fun _ _ _ _ _ => ⟨rfl, rfl⟩
